import Mathlib

/-!
# Verification of the metamask-transfer wallet UI logic

`src/b.js` holds two variants of the same ~250-line React component:

* the MetaMask-SDK variant (`useSDK`): `connect`, `switchToBNBChain`,
  `fetchBalances`, `handleTransfer`;
* the Web3Modal variant (`useWeb3Modal*`): `switchToBNBChain`,
  `fetchBalances`, `handleTransfer` (with an extra wallet-presence guard).

The component state (`useState` hooks) is modelled by `AppState`.  Every
external asynchronous call (wallet request, ethers provider/contract call)
is an oracle outcome recorded in `Env`: each call either returns a value or
throws a `JsError`, exactly as the `await`ed library calls can.  Executions
are deterministic given the oracle, so each handler becomes a function
`Env → AppState → AppState × List Event`, where the event list is the
ordered trace of external calls and state-setter effects the handler
performed.  JavaScript `try/catch/finally` becomes explicit threading of
the thrown error.  Emptiness tests (`!recipient`) use the JS truthiness of
strings: only the empty string is falsy.

`ethers.formatUnits` / `formatEther` are pure library functions whose
results the component stores, so they are embedded concretely
(`formatUnits` below follows the ethers v6 `FixedNumber.toString` decimal
rendering).  The balance cards render `parseFloat(s).toFixed(n)`; this is
embedded as exact decimal rounding (`toFixedDisplay`), which agrees with
the JS double pipeline at every value that is exactly representable in
binary64, in particular at the concrete values checked here.
-/

/-- A thrown JavaScript error as the component observes it: an optional
numeric `code` (the duck-typed `err.code === 4902` test) and a `message`. -/
structure JsError where
  code : Option Int
  message : String
deriving Repr, DecidableEq

/-- Outcome of one awaited external call: a value, or a thrown error. -/
abbrev Outcome (α : Type) := Except JsError α

/-- Chain-registration payload of a `wallet_addEthereumChain` request. -/
structure AddChainParams where
  chainId : String
  chainName : String
  nativeCurrencyName : String
  nativeCurrencySymbol : String
  nativeCurrencyDecimals : Nat
  rpcUrls : List String
  blockExplorerUrls : List String
deriving Repr, DecidableEq

/-- The fixed BSC descriptor passed to `wallet_addEthereumChain` in
`switchToBNBChain` (both variants use the same literal). -/
def bscDescriptor : AddChainParams :=
  { chainId := "0x38"
    chainName := "BNB Smart Chain"
    nativeCurrencyName := "BNB"
    nativeCurrencySymbol := "BNB"
    nativeCurrencyDecimals := 18
    rpcUrls := ["https://bsc-dataseed.binance.org/"]
    blockExplorerUrls := ["https://bscscan.com/"] }

/-- Observable effects of a handler execution, in order: external
provider/contract/network calls, plus the state-setter effects on the
error and loading slots and the internal `fetchBalances()` invocation. -/
inductive Event where
  | sdkConnect
  | switchChainRequest (chainId : String)
  | addChainRequest (p : AddChainParams)
  | newBrowserProvider
  | getSigner
  | getBalance (account : String)
  | decimalsCall
  | balanceOfCall (account : String)
  | transferCall (recipient : String) (amountUnits : Int)
  | txWait
  | fetchBalancesCall
  | setErrorEv (msg : String)
  | setLoadingEv (b : Bool)
deriving Repr, DecidableEq

/-- Whether an event is a provider, contract, or network interaction (as
opposed to a local state-setter effect or the internal refresh marker). -/
def Event.isNetwork : Event → Bool
  | .setErrorEv _ => false
  | .setLoadingEv _ => false
  | .fetchBalancesCall => false
  | _ => true

/-- Whether an event is a `wallet_addEthereumChain` registration request. -/
def Event.isAddChain : Event → Bool
  | .addChainRequest _ => true
  | _ => false

/-- The component state held in the `useState` hooks. -/
structure AppState where
  bnbBalance : String
  usdtBalance : String
  loading : Bool
  error : String
  recipient : String
  amount : String
deriving Repr, DecidableEq

/-- Oracle for one execution: presence of the external handles, and the
outcome each awaited library call would produce if reached. -/
structure Env where
  /-- `sdk` handle present (MetaMask variant `sdk?.connect()`). -/
  sdkPresent : Bool
  /-- provider / walletProvider handle present. -/
  provider : Bool
  /-- `isConnected` (Web3Modal variant). -/
  connected : Bool
  /-- `account` / `address`, when present. -/
  account : Option String
  connectOutcome : Outcome Unit
  switchOutcome : Outcome Unit
  addChainOutcome : Outcome Unit
  /-- `new ethers.BrowserProvider(...)` construction. -/
  browserProviderOutcome : Outcome Unit
  getSignerOutcome : Outcome Unit
  /-- `getBalance(account)`: raw native balance in base units. -/
  getBalanceOutcome : Outcome Int
  /-- `usdtContract.decimals()`. -/
  decimalsOutcome : Outcome Nat
  /-- `usdtContract.balanceOf(account)`: raw token balance. -/
  balanceOfOutcome : Outcome Int
  /-- `ethers.parseUnits(amount, decimals)`. -/
  parseUnitsOutcome : Outcome Int
  /-- `usdtContract.transfer(recipient, transferAmount)`. -/
  transferOutcome : Outcome Unit
  /-- `tx.wait()`. -/
  txWaitOutcome : Outcome Unit

/-- Decimal rendering of a nonnegative raw value scaled by `10^d`,
following ethers v6 `FixedNumber.toString`: left-pad the digit string so
an integer digit exists, insert the point, trim trailing fraction zeros
keeping at least one digit. -/
def formatUnitsNat (v : Nat) (d : Nat) : String :=
  if d = 0 then toString v
  else
    let whole := v / 10 ^ d
    let frac := v % 10 ^ d
    let fracDigits := toString frac
    let padded := List.replicate (d - fracDigits.length) '0' ++ fracDigits.data
    let trimmed := (padded.reverse.dropWhile (fun c => c = '0')).reverse
    let fracStr := if trimmed.isEmpty then "0" else String.mk trimmed
    toString whole ++ "." ++ fracStr

/-- `ethers.formatUnits(value, decimals)`. -/
def formatUnits (v : Int) (d : Nat) : String :=
  if v < 0 then "-" ++ formatUnitsNat v.natAbs d else formatUnitsNat v.toNat d

/-- `ethers.formatEther(value)` = `formatUnits(value, 18)`. -/
def formatEther (v : Int) : String := formatUnits v 18

/-- Split a character list at the first decimal point, returning the
integer-part digits and, when a point is present, the fraction digits. -/
def splitOnDot : List Char → List Char × Option (List Char)
  | [] => ([], none)
  | c :: rest =>
    if c = '.' then ([], some rest)
    else
      let r := splitOnDot rest
      (c :: r.1, r.2)

/-- Value of a list of decimal digit characters. -/
def digitsToNat (cs : List Char) : Nat :=
  cs.foldl (fun acc c => acc * 10 + (c.toNat - '0'.toNat)) 0

/-- Parse a plain decimal string (optional sign, digits, optional point
and fraction digits) into `(numerator, scale)` with value
`numerator / 10^scale`.  Exact on every string `formatUnits` produces. -/
def parseDec (s : String) : Int × Nat :=
  let p :=
    match s.data with
    | '-' :: rest => (true, rest)
    | cs => (false, cs)
  let q := splitOnDot p.2
  let whole := digitsToNat q.1
  match q.2 with
  | none => ((if p.1 then -(whole : Int) else (whole : Int)), 0)
  | some f =>
    let n := whole * 10 ^ f.length + digitsToNat f
    ((if p.1 then -(n : Int) else (n : Int)), f.length)

/-- Model of the balance-card display pipeline `parseFloat(s).toFixed(n)`:
exact decimal rounding (half away from zero) to `n` fraction digits.  It
coincides with the JS double pipeline whenever the parsed value is exactly
representable in binary64 and no rounding tie arises, as at the concrete
balances checked below. -/
def toFixedDisplay (s : String) (n : Nat) : String :=
  let p := parseDec s
  let num := p.1
  let scale := p.2
  let a : Nat :=
    if scale ≤ n then num.natAbs * 10 ^ (n - scale)
    else (num.natAbs + 10 ^ (scale - n) / 2) / 10 ^ (scale - n)
  let signStr := if num < 0 ∧ a ≠ 0 then "-" else ""
  if n = 0 then signStr ++ toString a
  else
    let ip := a / 10 ^ n
    let frDigits := toString (a % 10 ^ n)
    let padded := List.replicate (n - frDigits.length) '0' ++ frDigits.data
    signStr ++ toString ip ++ "." ++ String.mk padded

/-- The BNB balance card: `parseFloat(bnbBalance).toFixed(4)` applied to
the stored `formatEther` string of a raw native balance. -/
def displayBnb (raw : Int) : String := toFixedDisplay (formatEther raw) 4

/-- The USDT balance card: `parseFloat(usdtBalance).toFixed(2)` applied to
the stored `formatUnits` string of a raw token balance. -/
def displayUsdt (raw : Int) (decimals : Nat) : String :=
  toFixedDisplay (formatUnits raw decimals) 2

namespace MetaMask

/-- `switchToBNBChain` of the MetaMask-SDK variant.  `provider?.request`
is skipped silently when the provider is absent; a failure with
`err.code === 4902` triggers one `wallet_addEthereumChain` request with
the fixed BSC descriptor; other failures set the generic switch message;
a failing registration sets the generic add message.  All errors are
caught internally, so the operation never throws. -/
def switchToBNBChain (env : Env) (st : AppState) : AppState × List Event :=
  if env.provider = false then (st, [])
  else
    match env.switchOutcome with
    | .ok _ => (st, [.switchChainRequest "0x38"])
    | .error e =>
      if e.code = some 4902 then
        match env.addChainOutcome with
        | .ok _ =>
          (st, [.switchChainRequest "0x38", .addChainRequest bscDescriptor])
        | .error _ =>
          ({ st with error := "Failed to add BSC network" },
           [.switchChainRequest "0x38", .addChainRequest bscDescriptor,
            .setErrorEv "Failed to add BSC network"])
      else
        ({ st with error := "Failed to switch network" },
         [.switchChainRequest "0x38", .setErrorEv "Failed to switch network"])

/-- `fetchBalances` of the MetaMask-SDK variant: no-op unless `account`
and `provider` are present; reads the native balance (storing its
`formatEther` rendering immediately), then token decimals, then the token
balance (storing its `formatUnits` rendering); any failure inside the try
block sets the generic fetch message.  Never throws. -/
def fetchBalances (env : Env) (st : AppState) : AppState × List Event :=
  match env.account with
  | none => (st, [])
  | some acct =>
    if env.provider = false then (st, [])
    else
      match env.browserProviderOutcome with
      | .error _ =>
        ({ st with error := "Failed to fetch balances" },
         [.newBrowserProvider, .setErrorEv "Failed to fetch balances"])
      | .ok _ =>
      match env.getBalanceOutcome with
      | .error _ =>
        ({ st with error := "Failed to fetch balances" },
         [.newBrowserProvider, .getBalance acct,
          .setErrorEv "Failed to fetch balances"])
      | .ok bal =>
        let st1 := { st with bnbBalance := formatEther bal }
        match env.decimalsOutcome with
        | .error _ =>
          ({ st1 with error := "Failed to fetch balances" },
           [.newBrowserProvider, .getBalance acct, .decimalsCall,
            .setErrorEv "Failed to fetch balances"])
        | .ok d =>
        match env.balanceOfOutcome with
        | .error _ =>
          ({ st1 with error := "Failed to fetch balances" },
           [.newBrowserProvider, .getBalance acct, .decimalsCall,
            .balanceOfCall acct, .setErrorEv "Failed to fetch balances"])
        | .ok tbal =>
          ({ st1 with usdtBalance := formatUnits tbal d },
           [.newBrowserProvider, .getBalance acct, .decimalsCall,
            .balanceOfCall acct])

/-- The try-block body of `handleTransfer` (MetaMask-SDK variant):
provider construction, signer, decimals, parseUnits, transfer, wait, then
the awaited `fetchBalances()` (which never throws) and the form clear.
Returns the state and trace reached, plus the thrown error if a step
threw. -/
def transferBody (env : Env) (st : AppState) :
    AppState × List Event × Option JsError :=
  match env.browserProviderOutcome with
  | .error e => (st, [.newBrowserProvider], some e)
  | .ok _ =>
  match env.getSignerOutcome with
  | .error e => (st, [.newBrowserProvider, .getSigner], some e)
  | .ok _ =>
  match env.decimalsOutcome with
  | .error e => (st, [.newBrowserProvider, .getSigner, .decimalsCall], some e)
  | .ok _ =>
  match env.parseUnitsOutcome with
  | .error e => (st, [.newBrowserProvider, .getSigner, .decimalsCall], some e)
  | .ok units =>
  match env.transferOutcome with
  | .error e =>
    (st, [.newBrowserProvider, .getSigner, .decimalsCall,
          .transferCall st.recipient units], some e)
  | .ok _ =>
  match env.txWaitOutcome with
  | .error e =>
    (st, [.newBrowserProvider, .getSigner, .decimalsCall,
          .transferCall st.recipient units, .txWait], some e)
  | .ok _ =>
    let res := fetchBalances env st
    ({ res.1 with recipient := "", amount := "" },
     [.newBrowserProvider, .getSigner, .decimalsCall,
      .transferCall st.recipient units, .txWait, .fetchBalancesCall] ++ res.2,
     none)

/-- `handleTransfer` of the MetaMask-SDK variant: validation first (empty
recipient or amount sets the validation message and returns), then
`setLoading(true); setError('')`, the try body, `setError(err.message)` on
a thrown error, and `setLoading(false)` in the finally block.  Note that
no wallet-presence check exists in this variant. -/
def handleTransfer (env : Env) (st : AppState) : AppState × List Event :=
  if st.recipient = "" ∨ st.amount = "" then
    ({ st with error := "Please enter recipient address and amount" },
     [.setErrorEv "Please enter recipient address and amount"])
  else
    let st1 := { st with loading := true, error := "" }
    match transferBody env st1 with
    | (st2, tr, none) =>
      ({ st2 with loading := false },
       [.setLoadingEv true, .setErrorEv ""] ++ tr ++ [.setLoadingEv false])
    | (st2, tr, some e) =>
      ({ st2 with error := e.message, loading := false },
       [.setLoadingEv true, .setErrorEv ""] ++ tr ++
        [.setErrorEv e.message, .setLoadingEv false])

/-- `connect` of the MetaMask-SDK variant: `setLoading(true);
setError('')`, then `sdk?.connect()` (skipped silently when the handle is
absent), then `switchToBNBChain()` (which never throws); a thrown connect
error is caught into the error slot; `setLoading(false)` in finally. -/
def connect (env : Env) (st : AppState) : AppState × List Event :=
  let st1 := { st with loading := true, error := "" }
  let hd := [Event.setLoadingEv true, Event.setErrorEv ""]
  if env.sdkPresent = false then
    let res := switchToBNBChain env st1
    ({ res.1 with loading := false }, hd ++ res.2 ++ [.setLoadingEv false])
  else
    match env.connectOutcome with
    | .error e =>
      ({ st1 with error := e.message, loading := false },
       hd ++ [.sdkConnect, .setErrorEv e.message, .setLoadingEv false])
    | .ok _ =>
      let res := switchToBNBChain env st1
      ({ res.1 with loading := false },
       hd ++ [.sdkConnect] ++ res.2 ++ [.setLoadingEv false])

/-- Clicking the submit button: the button carries `disabled={loading}`,
so a click dispatches `handleTransfer` only when `loading` is false. -/
def clickTransferButton (env : Env) (st : AppState) : AppState × List Event :=
  if st.loading then (st, []) else handleTransfer env st

end MetaMask

namespace Web3Modal

/-- `switchToBNBChain` of the Web3Modal variant: early return when the
wallet provider is absent; otherwise behaves as the MetaMask variant. -/
def switchToBNBChain (env : Env) (st : AppState) : AppState × List Event :=
  if env.provider = false then (st, [])
  else
    match env.switchOutcome with
    | .ok _ => (st, [.switchChainRequest "0x38"])
    | .error e =>
      if e.code = some 4902 then
        match env.addChainOutcome with
        | .ok _ =>
          (st, [.switchChainRequest "0x38", .addChainRequest bscDescriptor])
        | .error _ =>
          ({ st with error := "Failed to add BSC network" },
           [.switchChainRequest "0x38", .addChainRequest bscDescriptor,
            .setErrorEv "Failed to add BSC network"])
      else
        ({ st with error := "Failed to switch network" },
         [.switchChainRequest "0x38", .setErrorEv "Failed to switch network"])

/-- `fetchBalances` of the Web3Modal variant: no-op unless `isConnected`,
`walletProvider` and `address` are all present; the try body is the same
as the MetaMask variant. -/
def fetchBalances (env : Env) (st : AppState) : AppState × List Event :=
  if env.connected = false then (st, [])
  else if env.provider = false then (st, [])
  else
    match env.account with
    | none => (st, [])
    | some acct =>
      match env.browserProviderOutcome with
      | .error _ =>
        ({ st with error := "Failed to fetch balances" },
         [.newBrowserProvider, .setErrorEv "Failed to fetch balances"])
      | .ok _ =>
      match env.getBalanceOutcome with
      | .error _ =>
        ({ st with error := "Failed to fetch balances" },
         [.newBrowserProvider, .getBalance acct,
          .setErrorEv "Failed to fetch balances"])
      | .ok bal =>
        let st1 := { st with bnbBalance := formatEther bal }
        match env.decimalsOutcome with
        | .error _ =>
          ({ st1 with error := "Failed to fetch balances" },
           [.newBrowserProvider, .getBalance acct, .decimalsCall,
            .setErrorEv "Failed to fetch balances"])
        | .ok d =>
        match env.balanceOfOutcome with
        | .error _ =>
          ({ st1 with error := "Failed to fetch balances" },
           [.newBrowserProvider, .getBalance acct, .decimalsCall,
            .balanceOfCall acct, .setErrorEv "Failed to fetch balances"])
        | .ok tbal =>
          ({ st1 with usdtBalance := formatUnits tbal d },
           [.newBrowserProvider, .getBalance acct, .decimalsCall,
            .balanceOfCall acct])

/-- The try-block body of `handleTransfer` (Web3Modal variant); identical
to the MetaMask variant except that the success path awaits this
variant's `fetchBalances`. -/
def transferBody (env : Env) (st : AppState) :
    AppState × List Event × Option JsError :=
  match env.browserProviderOutcome with
  | .error e => (st, [.newBrowserProvider], some e)
  | .ok _ =>
  match env.getSignerOutcome with
  | .error e => (st, [.newBrowserProvider, .getSigner], some e)
  | .ok _ =>
  match env.decimalsOutcome with
  | .error e => (st, [.newBrowserProvider, .getSigner, .decimalsCall], some e)
  | .ok _ =>
  match env.parseUnitsOutcome with
  | .error e => (st, [.newBrowserProvider, .getSigner, .decimalsCall], some e)
  | .ok units =>
  match env.transferOutcome with
  | .error e =>
    (st, [.newBrowserProvider, .getSigner, .decimalsCall,
          .transferCall st.recipient units], some e)
  | .ok _ =>
  match env.txWaitOutcome with
  | .error e =>
    (st, [.newBrowserProvider, .getSigner, .decimalsCall,
          .transferCall st.recipient units, .txWait], some e)
  | .ok _ =>
    let res := fetchBalances env st
    ({ res.1 with recipient := "", amount := "" },
     [.newBrowserProvider, .getSigner, .decimalsCall,
      .transferCall st.recipient units, .txWait, .fetchBalancesCall] ++ res.2,
     none)

/-- `handleTransfer` of the Web3Modal variant: validation first, then the
wallet-presence guard (`'Please connect your wallet'` and return when the
provider is absent), then the same loading/try/catch/finally shape as the
MetaMask variant. -/
def handleTransfer (env : Env) (st : AppState) : AppState × List Event :=
  if st.recipient = "" ∨ st.amount = "" then
    ({ st with error := "Please enter recipient address and amount" },
     [.setErrorEv "Please enter recipient address and amount"])
  else if env.provider = false then
    ({ st with error := "Please connect your wallet" },
     [.setErrorEv "Please connect your wallet"])
  else
    let st1 := { st with loading := true, error := "" }
    match transferBody env st1 with
    | (st2, tr, none) =>
      ({ st2 with loading := false },
       [.setLoadingEv true, .setErrorEv ""] ++ tr ++ [.setLoadingEv false])
    | (st2, tr, some e) =>
      ({ st2 with error := e.message, loading := false },
       [.setLoadingEv true, .setErrorEv ""] ++ tr ++
        [.setErrorEv e.message, .setLoadingEv false])

/-- Clicking the submit button: `disabled={loading}`, so a click
dispatches `handleTransfer` only when `loading` is false. -/
def clickTransferButton (env : Env) (st : AppState) : AppState × List Event :=
  if st.loading then (st, []) else handleTransfer env st

end Web3Modal

/-- Recognizes the internal `fetchBalances()` invocation marker. -/
def Event.isFetchMarker : Event → Bool
  | .fetchBalancesCall => true
  | _ => false

/-- Frame facts about the MetaMask-variant `fetchBalances`: it never
touches the form fields or the loading flag, and its own trace contains
no `fetchBalances()` invocation marker. -/
theorem mm_fetchBalances_frame (env : Env) (st : AppState) :
    ((MetaMask.fetchBalances env st).1.recipient = st.recipient ∧
     (MetaMask.fetchBalances env st).1.amount = st.amount ∧
     (MetaMask.fetchBalances env st).1.loading = st.loading) ∧
    (MetaMask.fetchBalances env st).2.countP Event.isFetchMarker = 0 := by
  unfold MetaMask.fetchBalances
  repeat' split <;> try simp [Event.isFetchMarker]

/-- Frame facts about the Web3Modal-variant `fetchBalances`, as for the
MetaMask variant. -/
theorem w3m_fetchBalances_frame (env : Env) (st : AppState) :
    ((Web3Modal.fetchBalances env st).1.recipient = st.recipient ∧
     (Web3Modal.fetchBalances env st).1.amount = st.amount ∧
     (Web3Modal.fetchBalances env st).1.loading = st.loading) ∧
    (Web3Modal.fetchBalances env st).2.countP Event.isFetchMarker = 0 := by
  unfold Web3Modal.fetchBalances
  repeat' split <;> try simp [Event.isFetchMarker]

/-- Oracle in which every handle is present and every external call
succeeds, with concrete balances and parse results. -/
def okEnv : Env :=
  { sdkPresent := true
    provider := true
    connected := true
    account := some "0xme"
    connectOutcome := .ok ()
    switchOutcome := .ok ()
    addChainOutcome := .ok ()
    browserProviderOutcome := .ok ()
    getSignerOutcome := .ok ()
    getBalanceOutcome := .ok (2 * 10 ^ 18)
    decimalsOutcome := .ok 18
    balanceOfOutcome := .ok (3 * 10 ^ 18)
    parseUnitsOutcome := .ok (10 ^ 18)
    transferOutcome := .ok ()
    txWaitOutcome := .ok () }

/-- A filled transfer form in an otherwise fresh component state. -/
def filledSt : AppState :=
  { bnbBalance := "0"
    usdtBalance := "0"
    loading := false
    error := ""
    recipient := "0xabc"
    amount := "1" }

/-- The filled state with the recipient field emptied. -/
def emptyRecipientSt : AppState := { filledSt with recipient := "" }

/-- C1: when the recipient field or the amount field is the empty string,
`handleTransfer` (both variants) sets the error to the validation message
`'Please enter recipient address and amount'`, performs no provider,
contract, or network interaction, and leaves every other piece of state
(balances, form fields, loading flag) unchanged. -/
theorem C1_empty_fields_validation (env : Env) (st : AppState)
    (h : st.recipient = "" ∨ st.amount = "") :
    (MetaMask.handleTransfer env st =
      ({ st with error := "Please enter recipient address and amount" },
       [Event.setErrorEv "Please enter recipient address and amount"]) ∧
     (MetaMask.handleTransfer env st).2.filter Event.isNetwork = []) ∧
    (Web3Modal.handleTransfer env st =
      ({ st with error := "Please enter recipient address and amount" },
       [Event.setErrorEv "Please enter recipient address and amount"]) ∧
     (Web3Modal.handleTransfer env st).2.filter Event.isNetwork = []) := by
  unfold MetaMask.handleTransfer Web3Modal.handleTransfer
  rw [if_pos h, if_pos h]
  exact ⟨⟨rfl, rfl⟩, rfl, rfl⟩

/-- Witness for C1 at a concrete state whose recipient field is empty. -/
theorem C1_empty_fields_validation_witness :
    emptyRecipientSt.recipient = "" ∧
    (MetaMask.handleTransfer okEnv emptyRecipientSt).1.error =
      "Please enter recipient address and amount" ∧
    (Web3Modal.handleTransfer okEnv emptyRecipientSt).1.error =
      "Please enter recipient address and amount" := by
  have h := C1_empty_fields_validation okEnv emptyRecipientSt (Or.inl rfl)
  refine ⟨rfl, ?_, ?_⟩
  · rw [h.1.1]
  · rw [h.2.1]

/-- C2: when validation passes and the provider construction, signer
request, decimals read, amount parse, transfer call and confirmation wait
all succeed, `handleTransfer` (both variants) clears the recipient and
amount fields and invokes `fetchBalances` exactly once. -/
theorem C2_success_clears_form_and_refreshes_once (env : Env) (st : AppState)
    (hr : st.recipient ≠ "") (ha : st.amount ≠ "") (hp : env.provider = true)
    (h1 : env.browserProviderOutcome = .ok ()) (h2 : env.getSignerOutcome = .ok ())
    (h3 : ∃ d, env.decimalsOutcome = .ok d) (h4 : ∃ u, env.parseUnitsOutcome = .ok u)
    (h5 : env.transferOutcome = .ok ()) (h6 : env.txWaitOutcome = .ok ()) :
    ((MetaMask.handleTransfer env st).1.recipient = "" ∧
     (MetaMask.handleTransfer env st).1.amount = "" ∧
     (MetaMask.handleTransfer env st).2.countP Event.isFetchMarker = 1) ∧
    ((Web3Modal.handleTransfer env st).1.recipient = "" ∧
     (Web3Modal.handleTransfer env st).1.amount = "" ∧
     (Web3Modal.handleTransfer env st).2.countP Event.isFetchMarker = 1) := by
  obtain ⟨d, h3⟩ := h3
  obtain ⟨u, h4⟩ := h4
  have hf := (mm_fetchBalances_frame env { st with loading := true, error := "" }).2
  have hg := (w3m_fetchBalances_frame env { st with loading := true, error := "" }).2
  constructor
  · unfold MetaMask.handleTransfer MetaMask.transferBody
    simp [hr, ha, h1, h2, h3, h4, h5, h6, List.countP_append, List.countP_cons, hf,
      Event.isFetchMarker]
  · unfold Web3Modal.handleTransfer Web3Modal.transferBody
    simp [hr, ha, hp, h1, h2, h3, h4, h5, h6, List.countP_append, List.countP_cons, hg,
      Event.isFetchMarker]

/-- Witness for C2 at the all-success oracle and the filled form. -/
theorem C2_success_clears_form_and_refreshes_once_witness :
    ((MetaMask.handleTransfer okEnv filledSt).1.recipient = "" ∧
     (MetaMask.handleTransfer okEnv filledSt).1.amount = "" ∧
     (MetaMask.handleTransfer okEnv filledSt).2.countP Event.isFetchMarker = 1) ∧
    ((Web3Modal.handleTransfer okEnv filledSt).1.recipient = "" ∧
     (Web3Modal.handleTransfer okEnv filledSt).1.amount = "" ∧
     (Web3Modal.handleTransfer okEnv filledSt).2.countP Event.isFetchMarker = 1) :=
  C2_success_clears_form_and_refreshes_once okEnv filledSt
    (by decide) (by decide) rfl rfl rfl ⟨18, rfl⟩ ⟨10 ^ 18, rfl⟩ rfl rfl

/-- C3: when validation passes and the steps before the transfer succeed
but the transfer call or its confirmation wait throws, `handleTransfer`
(both variants) leaves the recipient and amount fields exactly as they
were at invocation and stores the thrown error's message verbatim in the
error slot. -/
theorem C3_failure_keeps_form_and_surfaces_message (env : Env) (st : AppState)
    (e : JsError)
    (hr : st.recipient ≠ "") (ha : st.amount ≠ "") (hp : env.provider = true)
    (h1 : env.browserProviderOutcome = .ok ()) (h2 : env.getSignerOutcome = .ok ())
    (h3 : ∃ d, env.decimalsOutcome = .ok d) (h4 : ∃ u, env.parseUnitsOutcome = .ok u)
    (hf : env.transferOutcome = .error e ∨
          (env.transferOutcome = .ok () ∧ env.txWaitOutcome = .error e)) :
    ((MetaMask.handleTransfer env st).1.recipient = st.recipient ∧
     (MetaMask.handleTransfer env st).1.amount = st.amount ∧
     (MetaMask.handleTransfer env st).1.error = e.message) ∧
    ((Web3Modal.handleTransfer env st).1.recipient = st.recipient ∧
     (Web3Modal.handleTransfer env st).1.amount = st.amount ∧
     (Web3Modal.handleTransfer env st).1.error = e.message) := by
  obtain ⟨d, h3⟩ := h3
  obtain ⟨u, h4⟩ := h4
  rcases hf with hf | ⟨hf1, hf2⟩
  · constructor
    · unfold MetaMask.handleTransfer MetaMask.transferBody
      simp [hr, ha, h1, h2, h3, h4, hf]
    · unfold Web3Modal.handleTransfer Web3Modal.transferBody
      simp [hr, ha, hp, h1, h2, h3, h4, hf]
  · constructor
    · unfold MetaMask.handleTransfer MetaMask.transferBody
      simp [hr, ha, h1, h2, h3, h4, hf1, hf2]
    · unfold Web3Modal.handleTransfer Web3Modal.transferBody
      simp [hr, ha, hp, h1, h2, h3, h4, hf1, hf2]

/-- Oracle in which the transfer call is rejected by the user. -/
def rejectedEnv : Env :=
  { okEnv with transferOutcome := .error { code := none, message := "user rejected" } }

/-- Witness for C3 at an oracle whose transfer call throws. -/
theorem C3_failure_keeps_form_and_surfaces_message_witness :
    ((MetaMask.handleTransfer rejectedEnv filledSt).1.recipient = filledSt.recipient ∧
     (MetaMask.handleTransfer rejectedEnv filledSt).1.amount = filledSt.amount ∧
     (MetaMask.handleTransfer rejectedEnv filledSt).1.error = "user rejected") ∧
    ((Web3Modal.handleTransfer rejectedEnv filledSt).1.recipient = filledSt.recipient ∧
     (Web3Modal.handleTransfer rejectedEnv filledSt).1.amount = filledSt.amount ∧
     (Web3Modal.handleTransfer rejectedEnv filledSt).1.error = "user rejected") :=
  C3_failure_keeps_form_and_surfaces_message rejectedEnv filledSt
    { code := none, message := "user rejected" }
    (by decide) (by decide) rfl rfl rfl ⟨18, rfl⟩ ⟨10 ^ 18, rfl⟩ (Or.inl rfl)

/-- Oracle in which the native-balance read succeeds but the token
decimals read fails. -/
def fetchFailEnv : Env :=
  { okEnv with decimalsOutcome := .error { code := none, message := "read failed" } }

/-- C4 counterexample: with the native read succeeding (2 BNB) and the
token decimals read failing, `fetchBalances` sets the generic message but
has already overwritten the stored native balance — a partial update does
occur, contradicting the claim that both balances are left exactly as
they were. -/
theorem C4_counterexample :
    fetchFailEnv.getBalanceOutcome = .ok (2 * 10 ^ 18) ∧
    (∃ e, fetchFailEnv.decimalsOutcome = .error e) ∧
    (MetaMask.fetchBalances fetchFailEnv filledSt).1.error = "Failed to fetch balances" ∧
    (MetaMask.fetchBalances fetchFailEnv filledSt).1.bnbBalance = "2.0" ∧
    filledSt.bnbBalance = "0" ∧
    (MetaMask.fetchBalances fetchFailEnv filledSt).1.bnbBalance ≠ filledSt.bnbBalance := by
  refine ⟨rfl, ⟨_, rfl⟩, rfl, by decide, rfl, by decide⟩

/-- C4 amended: when any chain read of `fetchBalances` fails (both
variants, with the handles present), the error slot is set to the generic
`'Failed to fetch balances'` message and the stored token balance is
unchanged; the stored native balance is unchanged exactly when the native
read did not succeed — when the native read succeeded before a later read
failed, the native balance has already been updated to the newly read
value. -/
theorem C4_amended_fetch_failure (env : Env) (st : AppState) (acct : String)
    (hacct : env.account = some acct) (hp : env.provider = true) (hc : env.connected = true)
    (hfail : (∃ e, env.browserProviderOutcome = .error e) ∨
             (∃ e, env.getBalanceOutcome = .error e) ∨
             (∃ e, env.decimalsOutcome = .error e) ∨
             (∃ e, env.balanceOfOutcome = .error e)) :
    ((MetaMask.fetchBalances env st).1.error = "Failed to fetch balances" ∧
     (MetaMask.fetchBalances env st).1.usdtBalance = st.usdtBalance ∧
     (∀ v, env.browserProviderOutcome = .ok () → env.getBalanceOutcome = .ok v →
        (MetaMask.fetchBalances env st).1.bnbBalance = formatEther v) ∧
     (∀ e, env.browserProviderOutcome = .error e →
        (MetaMask.fetchBalances env st).1.bnbBalance = st.bnbBalance) ∧
     (∀ e, env.getBalanceOutcome = .error e →
        (MetaMask.fetchBalances env st).1.bnbBalance = st.bnbBalance)) ∧
    ((Web3Modal.fetchBalances env st).1.error = "Failed to fetch balances" ∧
     (Web3Modal.fetchBalances env st).1.usdtBalance = st.usdtBalance ∧
     (∀ v, env.browserProviderOutcome = .ok () → env.getBalanceOutcome = .ok v →
        (Web3Modal.fetchBalances env st).1.bnbBalance = formatEther v) ∧
     (∀ e, env.browserProviderOutcome = .error e →
        (Web3Modal.fetchBalances env st).1.bnbBalance = st.bnbBalance) ∧
     (∀ e, env.getBalanceOutcome = .error e →
        (Web3Modal.fetchBalances env st).1.bnbBalance = st.bnbBalance)) := by
  constructor
  · unfold MetaMask.fetchBalances
    repeat' split <;> simp_all
  · unfold Web3Modal.fetchBalances
    repeat' split <;> simp_all

/-- Witness for the amended C4 at the oracle whose decimals read fails. -/
theorem C4_amended_fetch_failure_witness :
    (MetaMask.fetchBalances fetchFailEnv filledSt).1.error = "Failed to fetch balances" ∧
    (MetaMask.fetchBalances fetchFailEnv filledSt).1.usdtBalance = filledSt.usdtBalance ∧
    (Web3Modal.fetchBalances fetchFailEnv filledSt).1.error = "Failed to fetch balances" ∧
    (Web3Modal.fetchBalances fetchFailEnv filledSt).1.usdtBalance = filledSt.usdtBalance := by
  have h := C4_amended_fetch_failure fetchFailEnv filledSt "0xme" rfl rfl rfl
    (Or.inr (Or.inr (Or.inl ⟨{ code := none, message := "read failed" }, rfl⟩)))
  exact ⟨h.1.1, h.1.2.1, h.2.1, h.2.2.1⟩

/-- C5: when the chain-switch request fails with an error whose `code`
is `4902`, `switchToBNBChain` (both variants) issues exactly one
`wallet_addEthereumChain` registration request, and its payload is the
fixed BSC descriptor: chain id `'0x38'`, name `'BNB Smart Chain'`, native
currency BNB with 18 decimals, one RPC URL and one explorer URL. -/
theorem C5_unregistered_chain_single_registration (env : Env) (st : AppState)
    (e : JsError)
    (hp : env.provider = true) (hs : env.switchOutcome = .error e)
    (hc : e.code = some 4902) :
    ((MetaMask.switchToBNBChain env st).2.filter Event.isAddChain =
       [Event.addChainRequest bscDescriptor] ∧
     (Web3Modal.switchToBNBChain env st).2.filter Event.isAddChain =
       [Event.addChainRequest bscDescriptor]) ∧
    (bscDescriptor.chainId = "0x38" ∧ bscDescriptor.chainName = "BNB Smart Chain" ∧
     bscDescriptor.nativeCurrencyName = "BNB" ∧ bscDescriptor.nativeCurrencySymbol = "BNB" ∧
     bscDescriptor.nativeCurrencyDecimals = 18 ∧
     bscDescriptor.rpcUrls = ["https://bsc-dataseed.binance.org/"] ∧
     bscDescriptor.blockExplorerUrls = ["https://bscscan.com/"]) := by
  refine ⟨?_, rfl, rfl, rfl, rfl, rfl, rfl, rfl⟩
  cases hA : env.addChainOutcome <;>
    constructor <;>
      first
      | (unfold MetaMask.switchToBNBChain
         simp [hp, hs, hc, hA, Event.isAddChain])
      | (unfold Web3Modal.switchToBNBChain
         simp [hp, hs, hc, hA, Event.isAddChain])

/-- Oracle in which the switch request reports the unregistered-chain
error code 4902. -/
def unregisteredEnv : Env :=
  { okEnv with switchOutcome := .error { code := some 4902, message := "Unrecognized chain ID" } }

/-- Witness for C5 at the oracle reporting error code 4902. -/
theorem C5_unregistered_chain_single_registration_witness :
    (MetaMask.switchToBNBChain unregisteredEnv filledSt).2.filter Event.isAddChain =
      [Event.addChainRequest bscDescriptor] ∧
    (Web3Modal.switchToBNBChain unregisteredEnv filledSt).2.filter Event.isAddChain =
      [Event.addChainRequest bscDescriptor] :=
  (C5_unregistered_chain_single_registration unregisteredEnv filledSt
    { code := some 4902, message := "Unrecognized chain ID" } rfl rfl rfl).1

/-- Oracle in which the wallet handle is absent and the signer request
consequently throws the ethers invalid-provider error. -/
def noProviderEnv : Env :=
  { okEnv with
    provider := false
    getSignerOutcome := .error { code := none, message := "invalid EIP-1193 provider" } }

/-- C6 counterexample: in the MetaMask-SDK variant, `handleTransfer` with
non-empty recipient and amount but an absent provider does not abort with
a validation error: it constructs an ethers provider and requests a
signer (events present in the trace), and the error slot ends up holding
the underlying library error message rather than a validation message. -/
theorem C6_counterexample :
    noProviderEnv.provider = false ∧
    filledSt.recipient ≠ "" ∧ filledSt.amount ≠ "" ∧
    Event.newBrowserProvider ∈ (MetaMask.handleTransfer noProviderEnv filledSt).2 ∧
    Event.getSigner ∈ (MetaMask.handleTransfer noProviderEnv filledSt).2 ∧
    (MetaMask.handleTransfer noProviderEnv filledSt).1.error = "invalid EIP-1193 provider" := by
  decide

/-- C6 amended: only the Web3Modal variant guards against an absent
provider — there `handleTransfer` with non-empty fields sets the
validation error `'Please connect your wallet'` and returns with no
provider, contract or network interaction and all other state unchanged;
the MetaMask-SDK variant has no such guard and always proceeds to
construct a provider inside the try block. -/
theorem C6_amended_guard_only_in_web3modal (env : Env) (st : AppState)
    (hr : st.recipient ≠ "") (ha : st.amount ≠ "") (hp : env.provider = false) :
    (Web3Modal.handleTransfer env st =
       ({ st with error := "Please connect your wallet" },
        [Event.setErrorEv "Please connect your wallet"]) ∧
     (Web3Modal.handleTransfer env st).2.filter Event.isNetwork = []) ∧
    Event.newBrowserProvider ∈ (MetaMask.handleTransfer env st).2 := by
  constructor
  · unfold Web3Modal.handleTransfer
    simp [hr, ha, hp, Event.isNetwork]
  · unfold MetaMask.handleTransfer MetaMask.transferBody
    cases h1 : env.browserProviderOutcome <;>
      cases h2 : env.getSignerOutcome <;>
        cases h3 : env.decimalsOutcome <;>
          cases h4 : env.parseUnitsOutcome <;>
            cases h5 : env.transferOutcome <;>
              cases h6 : env.txWaitOutcome <;>
                simp [hr, ha, h1, h2, h3, h4, h5, h6]

/-- Witness for the amended C6 at the absent-provider oracle. -/
theorem C6_amended_guard_only_in_web3modal_witness :
    (Web3Modal.handleTransfer noProviderEnv filledSt).2.filter Event.isNetwork = [] ∧
    Event.newBrowserProvider ∈ (MetaMask.handleTransfer noProviderEnv filledSt).2 := by
  have h := C6_amended_guard_only_in_web3modal noProviderEnv filledSt
    (by decide) (by decide) rfl
  exact ⟨h.1.2, h.2⟩

/-- The filled state carrying a stale error message from a previous
failure. -/
def staleErrorSt : AppState := { filledSt with error := "stale failure" }

/-- Oracle in which the switch request is rejected by the user (a
non-4902 failure with its own message). -/
def switchRejectedEnv : Env :=
  { okEnv with switchOutcome := .error { code := none, message := "user rejected request" } }

/-- C7 counterexample, refuting both halves of the claim.  Clearing: a
`fetchBalances` attempt (and likewise a `switchToBNBChain` attempt)
never writes the empty string to the error slot — a fully successful
fetch leaves a stale error message in place, so not every operation
attempt clears the error slot at its start.  Overwriting: a rejected
switch request stores the fixed generic `'Failed to switch network'`
message, not that failure's own message `'user rejected request'`. -/
theorem C7_counterexample :
    staleErrorSt.error = "stale failure" ∧
    Event.setErrorEv "" ∉ (MetaMask.fetchBalances okEnv staleErrorSt).2 ∧
    (MetaMask.fetchBalances okEnv staleErrorSt).1.error = "stale failure" ∧
    Event.setErrorEv "" ∉ (MetaMask.switchToBNBChain okEnv staleErrorSt).2 ∧
    (MetaMask.switchToBNBChain okEnv staleErrorSt).1.error = "stale failure" ∧
    switchRejectedEnv.switchOutcome =
      .error { code := none, message := "user rejected request" } ∧
    (MetaMask.switchToBNBChain switchRejectedEnv filledSt).1.error =
      "Failed to switch network" ∧
    (MetaMask.switchToBNBChain switchRejectedEnv filledSt).1.error ≠
      "user rejected request" :=
  ⟨by decide, by decide, by decide, by decide, by decide, rfl, by decide, by decide⟩

/-- C7 amended: only `connect` and `handleTransfer` (once past
validation) clear the error slot — their traces begin with
`setLoading(true); setError('')` — while `switchToBNBChain` and
`fetchBalances` never write the empty string to the error slot, so a
stale error survives them.  Every failure still overwrites the single
error slot, but not always with that failure's own message: the connect
and transfer catch blocks store the thrown error's message verbatim,
while a failing switch stores `'Failed to switch network'`, a failing
chain registration stores `'Failed to add BSC network'`, and a failing
balance fetch stores `'Failed to fetch balances'`. -/
theorem C7_amended_error_clearing (env : Env) (st : AppState)
    (hr : st.recipient ≠ "") (ha : st.amount ≠ "") (hp : env.provider = true) :
    ((MetaMask.connect env st).2.take 2 = [Event.setLoadingEv true, Event.setErrorEv ""] ∧
     (MetaMask.handleTransfer env st).2.take 2 = [Event.setLoadingEv true, Event.setErrorEv ""] ∧
     (Web3Modal.handleTransfer env st).2.take 2 = [Event.setLoadingEv true, Event.setErrorEv ""] ∧
     Event.setErrorEv "" ∉ (MetaMask.fetchBalances env st).2 ∧
     Event.setErrorEv "" ∉ (MetaMask.switchToBNBChain env st).2 ∧
     Event.setErrorEv "" ∉ (Web3Modal.fetchBalances env st).2 ∧
     Event.setErrorEv "" ∉ (Web3Modal.switchToBNBChain env st).2) ∧
    ((∀ e, env.sdkPresent = true → env.connectOutcome = .error e →
        (MetaMask.connect env st).1.error = e.message) ∧
     (∀ e, env.browserProviderOutcome = .error e →
        (MetaMask.handleTransfer env st).1.error = e.message ∧
        (Web3Modal.handleTransfer env st).1.error = e.message) ∧
     (∀ e, env.switchOutcome = .error e → e.code ≠ some 4902 →
        (MetaMask.switchToBNBChain env st).1.error = "Failed to switch network" ∧
        (Web3Modal.switchToBNBChain env st).1.error = "Failed to switch network") ∧
     (∀ e a, env.switchOutcome = .error e → e.code = some 4902 →
        env.addChainOutcome = .error a →
        (MetaMask.switchToBNBChain env st).1.error = "Failed to add BSC network" ∧
        (Web3Modal.switchToBNBChain env st).1.error = "Failed to add BSC network") ∧
     (∀ acct e, env.account = some acct → env.connected = true →
        env.browserProviderOutcome = .error e →
        (MetaMask.fetchBalances env st).1.error = "Failed to fetch balances" ∧
        (Web3Modal.fetchBalances env st).1.error = "Failed to fetch balances")) := by
  refine ⟨⟨?_, ?_, ?_, ?_, ?_, ?_, ?_⟩, ?_, ?_, ?_, ?_, ?_⟩
  · unfold MetaMask.connect
    repeat' split <;> try simp
  · unfold MetaMask.handleTransfer
    rw [if_neg (by simp [hr, ha])]
    dsimp only
    split <;> simp
  · unfold Web3Modal.handleTransfer
    rw [if_neg (by simp [hr, ha]), if_neg (by simp [hp])]
    dsimp only
    split <;> simp
  · unfold MetaMask.fetchBalances
    repeat' split <;> try simp
  · unfold MetaMask.switchToBNBChain
    repeat' split <;> try simp
  · unfold Web3Modal.fetchBalances
    repeat' split <;> try simp
  · unfold Web3Modal.switchToBNBChain
    repeat' split <;> try simp
  · intro e hs he
    unfold MetaMask.connect
    simp [hs, he]
  · intro e he
    constructor
    · unfold MetaMask.handleTransfer MetaMask.transferBody
      simp [hr, ha, he]
    · unfold Web3Modal.handleTransfer Web3Modal.transferBody
      simp [hr, ha, hp, he]
  · intro e hs hcode
    constructor
    · unfold MetaMask.switchToBNBChain
      simp [hp, hs, hcode]
    · unfold Web3Modal.switchToBNBChain
      simp [hp, hs, hcode]
  · intro e a hs hcode hA
    constructor
    · unfold MetaMask.switchToBNBChain
      simp [hp, hs, hcode, hA]
    · unfold Web3Modal.switchToBNBChain
      simp [hp, hs, hcode, hA]
  · intro acct e hacct hc he
    constructor
    · unfold MetaMask.fetchBalances
      simp [hacct, hp, he]
    · unfold Web3Modal.fetchBalances
      simp [hacct, hp, hc, he]

/-- Oracle in which the connect request, the switch request and the
provider construction all fail with their own messages. -/
def failingEnv : Env :=
  { okEnv with
    connectOutcome := .error { code := none, message := "user denied connect" }
    switchOutcome := .error { code := none, message := "user denied switch" }
    browserProviderOutcome := .error { code := none, message := "provider constructor threw" } }

/-- Witness for the amended C7 at an oracle whose connect, switch and
provider-construction calls fail. -/
theorem C7_amended_error_clearing_witness :
    (MetaMask.connect failingEnv filledSt).2.take 2 =
      [Event.setLoadingEv true, Event.setErrorEv ""] ∧
    Event.setErrorEv "" ∉ (MetaMask.fetchBalances failingEnv filledSt).2 ∧
    (MetaMask.connect failingEnv filledSt).1.error = "user denied connect" ∧
    (MetaMask.handleTransfer failingEnv filledSt).1.error = "provider constructor threw" ∧
    (MetaMask.switchToBNBChain failingEnv filledSt).1.error = "Failed to switch network" ∧
    (MetaMask.fetchBalances failingEnv filledSt).1.error = "Failed to fetch balances" := by
  have h := C7_amended_error_clearing failingEnv filledSt (by decide) (by decide) rfl
  refine ⟨h.1.1, h.1.2.2.2.1, ?_, ?_, ?_, ?_⟩
  · exact h.2.1 { code := none, message := "user denied connect" } rfl rfl
  · exact (h.2.2.1 { code := none, message := "provider constructor threw" } rfl).1
  · exact (h.2.2.2.1 { code := none, message := "user denied switch" } rfl (by decide)).1
  · exact (h.2.2.2.2.2 "0xme" { code := none, message := "provider constructor threw" }
      rfl rfl rfl).1

/-- The filled state while a first transfer attempt is outstanding
(`loading` is true). -/
def busySt : AppState := { filledSt with loading := true }

/-- C8 counterexample: `handleTransfer` itself never consults the
`loading` flag, so a direct second invocation while `loading` is true
does submit again — the transfer call reaches the contract layer. -/
theorem C8_counterexample :
    busySt.loading = true ∧
    Event.transferCall "0xabc" (10 ^ 18) ∈ (MetaMask.handleTransfer okEnv busySt).2 := by
  constructor
  · rfl
  · simp [MetaMask.handleTransfer, MetaMask.transferBody, MetaMask.fetchBalances,
      okEnv, busySt, filledSt]

/-- C8 amended: the mutual exclusion is UI-level only — the submit
button carries `disabled={loading}`, so a second button click while
`loading` is true dispatches nothing at all (no state change, no events,
hence no duplicate submission); but nothing stops a direct programmatic
second invocation of `handleTransfer`. -/
theorem C8_amended_click_guard (env : Env) (st : AppState) (hl : st.loading = true) :
    MetaMask.clickTransferButton env st = (st, []) ∧
    Web3Modal.clickTransferButton env st = (st, []) := by
  unfold MetaMask.clickTransferButton Web3Modal.clickTransferButton
  simp [hl]

/-- Witness for the amended C8 at a state with an outstanding attempt. -/
theorem C8_amended_click_guard_witness :
    MetaMask.clickTransferButton okEnv busySt = (busySt, []) ∧
    Web3Modal.clickTransferButton okEnv busySt = (busySt, []) :=
  C8_amended_click_guard okEnv busySt rfl

/-- C9: the balance-card formatting pipeline maps a raw native balance of
`10^18` base units to the displayed string `"1.0000"` (18-decimal scaling
then four fraction digits) and a raw token balance of `10^6` base units
with on-chain decimals 6 to the displayed string `"1.00"` (scaling by the
decimals value then two fraction digits). -/
theorem C9_balance_display_formatting :
    displayBnb (10 ^ 18) = "1.0000" ∧ displayUsdt (10 ^ 6) 6 = "1.00" := by
  decide

/-- C10: `fetchBalances` catches its own failures, so when the transfer
and its confirmation succeed but the subsequent balance refresh fails,
`handleTransfer` (both variants) still clears the recipient and amount
fields, leaves `'Failed to fetch balances'` in the error slot, and resets
the loading flag to false. -/
theorem C10_refresh_failure_still_clears_form (env : Env) (st : AppState) (acct : String)
    (hr : st.recipient ≠ "") (ha : st.amount ≠ "") (hp : env.provider = true)
    (hc : env.connected = true) (hacct : env.account = some acct)
    (h1 : env.browserProviderOutcome = .ok ()) (h2 : env.getSignerOutcome = .ok ())
    (h3 : ∃ d, env.decimalsOutcome = .ok d) (h4 : ∃ u, env.parseUnitsOutcome = .ok u)
    (h5 : env.transferOutcome = .ok ()) (h6 : env.txWaitOutcome = .ok ())
    (hfail : (∃ e, env.getBalanceOutcome = .error e) ∨
             (∃ e, env.balanceOfOutcome = .error e)) :
    ((MetaMask.handleTransfer env st).1.recipient = "" ∧
     (MetaMask.handleTransfer env st).1.amount = "" ∧
     (MetaMask.handleTransfer env st).1.error = "Failed to fetch balances" ∧
     (MetaMask.handleTransfer env st).1.loading = false) ∧
    ((Web3Modal.handleTransfer env st).1.recipient = "" ∧
     (Web3Modal.handleTransfer env st).1.amount = "" ∧
     (Web3Modal.handleTransfer env st).1.error = "Failed to fetch balances" ∧
     (Web3Modal.handleTransfer env st).1.loading = false) := by
  obtain ⟨d, h3⟩ := h3
  obtain ⟨u, h4⟩ := h4
  rcases hfail with ⟨e, he⟩ | ⟨e, he⟩
  · constructor
    · unfold MetaMask.handleTransfer MetaMask.transferBody MetaMask.fetchBalances
      simp [hr, ha, hacct, hp, h1, h2, h3, h4, h5, h6, he]
    · unfold Web3Modal.handleTransfer Web3Modal.transferBody Web3Modal.fetchBalances
      simp [hr, ha, hacct, hp, hc, h1, h2, h3, h4, h5, h6, he]
  · cases hg : env.getBalanceOutcome
    · constructor
      · unfold MetaMask.handleTransfer MetaMask.transferBody MetaMask.fetchBalances
        simp [hr, ha, hacct, hp, h1, h2, h3, h4, h5, h6, he, hg]
      · unfold Web3Modal.handleTransfer Web3Modal.transferBody Web3Modal.fetchBalances
        simp [hr, ha, hacct, hp, hc, h1, h2, h3, h4, h5, h6, he, hg]
    · constructor
      · unfold MetaMask.handleTransfer MetaMask.transferBody MetaMask.fetchBalances
        simp [hr, ha, hacct, hp, h1, h2, h3, h4, h5, h6, he, hg]
      · unfold Web3Modal.handleTransfer Web3Modal.transferBody Web3Modal.fetchBalances
        simp [hr, ha, hacct, hp, hc, h1, h2, h3, h4, h5, h6, he, hg]

/-- Oracle in which everything up to the confirmed transfer succeeds but
the native-balance read of the subsequent refresh fails. -/
def refreshFailEnv : Env :=
  { okEnv with getBalanceOutcome := .error { code := none, message := "rpc down" } }

/-- Witness for C10 at the oracle whose refresh read fails. -/
theorem C10_refresh_failure_still_clears_form_witness :
    ((MetaMask.handleTransfer refreshFailEnv filledSt).1.recipient = "" ∧
     (MetaMask.handleTransfer refreshFailEnv filledSt).1.amount = "" ∧
     (MetaMask.handleTransfer refreshFailEnv filledSt).1.error = "Failed to fetch balances" ∧
     (MetaMask.handleTransfer refreshFailEnv filledSt).1.loading = false) ∧
    ((Web3Modal.handleTransfer refreshFailEnv filledSt).1.recipient = "" ∧
     (Web3Modal.handleTransfer refreshFailEnv filledSt).1.amount = "" ∧
     (Web3Modal.handleTransfer refreshFailEnv filledSt).1.error = "Failed to fetch balances" ∧
     (Web3Modal.handleTransfer refreshFailEnv filledSt).1.loading = false) :=
  C10_refresh_failure_still_clears_form refreshFailEnv filledSt "0xme"
    (by decide) (by decide) rfl rfl rfl rfl rfl ⟨18, rfl⟩ ⟨10 ^ 18, rfl⟩ rfl rfl
    (Or.inl ⟨{ code := none, message := "rpc down" }, rfl⟩)
